import Mathlib

/-!
Verification of the Forward Projection Engine of the quantum-kapital
repository.  The data model is embedded from
`src/shared/types/analysis.ts`; the export conversion from
`src/features/analysis/utils/exportHelpers.ts`; the analyst
reconciliation from
`src/features/analysis/components/ForwardAnalysisTable.tsx`; the
baseline card from
`src/features/analysis/components/ProjectionSummary.tsx`.  JavaScript
numbers are modelled as exact rationals; where a division can hit a
zero denominator the IEEE special values are modelled explicitly by
`JsVal`.  The Rust scenario projector itself is not part of the
source snapshot and is modelled from the specification where needed.
-/

/-- IEEE-754 style value: a finite (exact) rational, an infinity, or NaN.
Used where JavaScript arithmetic can produce non-finite results. -/
inductive JsVal where
  | fin (q : ℚ)
  | posInf
  | negInf
  | nan
deriving DecidableEq, Repr

/-- JavaScript division of two finite numbers: division by zero produces
a signed infinity (or NaN for 0/0), otherwise the exact quotient. -/
def jsDivQ (a b : ℚ) : JsVal :=
  if b = 0 then
    if 0 < a then JsVal.posInf
    else if a < 0 then JsVal.negInf
    else JsVal.nan
  else JsVal.fin (a / b)

/-- Multiplication of a possibly non-finite value by a finite constant,
following IEEE-754 sign rules (infinity times zero is NaN). -/
def JsVal.mulConst : JsVal → ℚ → JsVal
  | JsVal.fin q, c => JsVal.fin (q * c)
  | JsVal.posInf, c => if 0 < c then JsVal.posInf else if c < 0 then JsVal.negInf else JsVal.nan
  | JsVal.negInf, c => if 0 < c then JsVal.negInf else if c < 0 then JsVal.posInf else JsVal.nan
  | JsVal.nan, _ => JsVal.nan

/-- JavaScript truthiness fallback `v || null` for a nullable number:
`0` is falsy and therefore collapses to `null`. -/
def jsNumOrNull (v : Option ℚ) : Option ℚ :=
  match v with
  | some q => if q = 0 then none else some q
  | none => none

/-- JavaScript truthiness fallback `v || d` for a nullable string:
the empty string is falsy and falls back to the default. -/
def jsStrOr (v : Option String) (d : String) : String :=
  match v with
  | some s => if s = "" then d else s
  | none => d

/-- JavaScript truthiness fallback `v || null` for a nullable string. -/
def jsStrOrNull (v : Option String) : Option String :=
  match v with
  | some s => if s = "" then none else some s
  | none => none

/-- One scenario-year projection, from `FinancialProjection` in
`src/shared/types/analysis.ts` (optional fields become `Option`). -/
structure FinancialProjection where
  year : ℤ
  revenue : ℚ
  revenueGrowth : ℚ
  netIncome : ℚ
  netIncomeGrowth : Option ℚ
  netIncomeMargins : ℚ
  eps : ℚ
  peLowEst : ℚ
  peHighEst : ℚ
  sharePriceLow : ℚ
  sharePriceHigh : ℚ
  valuationMethod : String
  psLowEst : Option ℚ
  psHighEst : Option ℚ
  analystEpsEstimate : Option ℚ
deriving DecidableEq, Repr

/-- CAGR percentages, from `CagrMetrics` in `src/shared/types/analysis.ts`. -/
structure CagrMetrics where
  revenue : ℚ
  sharePrice : ℚ
deriving DecidableEq, Repr

/-- Bear/base/bull CAGR, from `ScenarioCagr`. -/
structure ScenarioCagr where
  bear : CagrMetrics
  base : CagrMetrics
  bull : CagrMetrics
deriving DecidableEq, Repr

/-- One projected year across the three scenarios, from `YearlyProjection`. -/
structure YearlyProjection where
  year : ℤ
  bear : FinancialProjection
  base : FinancialProjection
  bull : FinancialProjection
deriving DecidableEq, Repr

/-- Complete projection results, from `ProjectionResults`. -/
structure ProjectionResults where
  baseline : FinancialProjection
  projections : List YearlyProjection
  cagr : ScenarioCagr
deriving DecidableEq, Repr

/-- Deprecated flat scenario shape, from `ScenarioProjections`. -/
structure ScenarioProjections where
  bear : List FinancialProjection
  base : List FinancialProjection
  bull : List FinancialProjection
  cagr : ScenarioCagr
deriving DecidableEq, Repr

/-- Historical financial data point, from `HistoricalFinancial`. -/
structure HistoricalFinancial where
  year : ℤ
  revenue : ℚ
  netIncome : ℚ
  eps : ℚ
deriving DecidableEq, Repr

/-- Analyst estimate for one year, from `AnalystEstimate`. -/
structure AnalystEstimate where
  year : ℤ
  estimate : ℚ
deriving DecidableEq, Repr

/-- Analyst estimates, from `AnalystEstimates`. -/
structure AnalystEstimates where
  revenue : List AnalystEstimate
  eps : List AnalystEstimate
deriving DecidableEq, Repr

/-- Current market metrics, from `CurrentMetrics`. -/
structure CurrentMetrics where
  price : ℚ
  peRatio : ℚ
  sharesOutstanding : ℚ
  name : Option String
  exchange : Option String
  marketCap : Option String
  dividendYield : Option ℚ
deriving DecidableEq, Repr

/-- Complete fundamental data for a security, from `FundamentalData`. -/
structure FundamentalData where
  symbol : String
  historical : List HistoricalFinancial
  analystEstimates : Option AnalystEstimates
  currentMetrics : CurrentMetrics
deriving DecidableEq, Repr

/-- Assumptions for generating projections, from `ProjectionAssumptions`. -/
structure ProjectionAssumptions where
  years : ℤ
  bearRevenueGrowth : ℚ
  baseRevenueGrowth : ℚ
  bullRevenueGrowth : ℚ
  bearMarginChange : ℚ
  baseMarginChange : ℚ
  bullMarginChange : ℚ
  peLow : ℚ
  peHigh : ℚ
  psLow : ℚ
  psHigh : ℚ
  sharesGrowth : ℚ
deriving DecidableEq, Repr

/-- The default assumptions, from `defaultProjectionAssumptions` in
`src/shared/types/analysis.ts`. -/
def defaultProjectionAssumptions : ProjectionAssumptions :=
  { years := 5
    bearRevenueGrowth := 20.0
    baseRevenueGrowth := 35.0
    bullRevenueGrowth := 50.0
    bearMarginChange := -0.5
    baseMarginChange := 0.5
    bullMarginChange := 1.0
    peLow := 50.0
    peHigh := 60.0
    psLow := 3.0
    psHigh := 8.0
    sharesGrowth := 0.0 }

/-- One exported historical row, from the object built inside
`historical_financials` in `convertToTickerAnalysisData`
(`src/features/analysis/utils/exportHelpers.ts`). -/
structure HistoricalFinancialRow where
  year : String
  revenue : ℚ
  net_income : ℚ
  eps : ℚ
  growth_rate : Option JsVal
deriving DecidableEq, Repr

/-- One exported scenario summary, from the objects built inside
`projections` in `convertToTickerAnalysisData`. -/
structure ScenarioProjectionExport where
  target_price : ℚ
  upside_percent : JsVal
  revenue_projection : ℚ
  eps_projection : ℚ
  timeline : String
deriving DecidableEq, Repr

/-- The three exported scenario summaries. -/
structure ProjectionDataExport where
  base : ScenarioProjectionExport
  bear : ScenarioProjectionExport
  bull : ScenarioProjectionExport
deriving DecidableEq, Repr

/-- One scenario of an exported yearly projection row. -/
structure YearlyScenarioExport where
  revenue : ℚ
  net_income : ℚ
  eps : ℚ
  share_price_low : ℚ
  share_price_high : ℚ
deriving DecidableEq, Repr

/-- One exported yearly projection row. -/
structure YearlyProjectionExport where
  year : ℤ
  bear : YearlyScenarioExport
  base : YearlyScenarioExport
  bull : YearlyScenarioExport
deriving DecidableEq, Repr

/-- The exported analysis record returned by `convertToTickerAnalysisData`. -/
structure TickerAnalysisData where
  ticker : String
  company_name : String
  sector : Option String
  market_cap : Option String
  current_price : ℚ
  pe_ratio : ℚ
  eps : Option ℚ
  historical_financials : List HistoricalFinancialRow
  projections : ProjectionDataExport
  yearly_projections : List YearlyProjectionExport
  baseline_year : ℤ
deriving DecidableEq, Repr

/-- The `calculateUpside` closure of `convertToTickerAnalysisData`:
`((targetPrice - currentMetrics.price) / currentMetrics.price) * 100`. -/
def calculateUpside (price targetPrice : ℚ) : JsVal :=
  JsVal.mulConst (jsDivQ (targetPrice - price) price) 100

/-- The revenue growth expression of a historical row:
`((h.revenue - prev.revenue) / prev.revenue) * 100`. -/
def historicalGrowthRate (prev h : HistoricalFinancial) : JsVal :=
  JsVal.mulConst (jsDivQ (h.revenue - prev.revenue) prev.revenue) 100

/-- The `historical.map((h, index) => ...)` loop of
`convertToTickerAnalysisData`, with the `index > 0` test rendered by
threading the previous entry: `growth_rate` is `null` for the first
entry and the growth expression against the predecessor otherwise. -/
def historicalRowsFrom :
    Option HistoricalFinancial → List HistoricalFinancial → List HistoricalFinancialRow
  | _, [] => []
  | prev?, h :: rest =>
    { year := toString h.year
      revenue := h.revenue * 1000000000
      net_income := h.netIncome * 1000000000
      eps := h.eps
      growth_rate := prev?.map (fun prev => historicalGrowthRate prev h) }
      :: historicalRowsFrom (some h) rest

/-- One scenario summary of the export: midpoint target price, upside
against the current price, final revenue and EPS, and the final year. -/
def scenarioProjectionExport (price : ℚ) (p : FinancialProjection) :
    ScenarioProjectionExport :=
  { target_price := (p.sharePriceLow + p.sharePriceHigh) / 2
    upside_percent := calculateUpside price ((p.sharePriceLow + p.sharePriceHigh) / 2)
    revenue_projection := p.revenue * 1000000000
    eps_projection := p.eps
    timeline := toString p.year }

/-- One scenario of an exported yearly projection row. -/
def yearlyScenarioExport (p : FinancialProjection) : YearlyScenarioExport :=
  { revenue := p.revenue * 1000000000
    net_income := p.netIncome * 1000000000
    eps := p.eps
    share_price_low := p.sharePriceLow
    share_price_high := p.sharePriceHigh }

/-- `convertToTickerAnalysisData` from
`src/features/analysis/utils/exportHelpers.ts`.  The source reads
`projections[projections.length - 1]` and dereferences its scenario
fields with no emptiness check; an empty `projections` therefore
throws, modelled here by `none`. -/
def convertToTickerAnalysisData (fundamentalData : FundamentalData)
    (results : ProjectionResults) : Option TickerAnalysisData :=
  match results.projections.getLast? with
  | none => none
  | some lastYearProj =>
    some
      { ticker := fundamentalData.symbol
        company_name := jsStrOr fundamentalData.currentMetrics.name fundamentalData.symbol
        sector := none
        market_cap := jsStrOrNull fundamentalData.currentMetrics.marketCap
        current_price := fundamentalData.currentMetrics.price
        pe_ratio := fundamentalData.currentMetrics.peRatio
        eps := jsNumOrNull (fundamentalData.historical.getLast?.map (fun h => h.eps))
        historical_financials := historicalRowsFrom none fundamentalData.historical
        projections :=
          { base := scenarioProjectionExport fundamentalData.currentMetrics.price lastYearProj.base
            bear := scenarioProjectionExport fundamentalData.currentMetrics.price lastYearProj.bear
            bull := scenarioProjectionExport fundamentalData.currentMetrics.price lastYearProj.bull }
        yearly_projections := results.projections.map (fun yearProj =>
          { year := yearProj.year
            bear := yearlyScenarioExport yearProj.bear
            base := yearlyScenarioExport yearProj.base
            bull := yearlyScenarioExport yearProj.bull })
        baseline_year := results.baseline.year }

/-- Outcome of the analyst-consensus badge of `ForwardAnalysisTable`:
the branch on `Math.abs(diffPercent) < 5` / `diff > 0`. -/
inductive ConsensusBadge where
  | aligned
  | above (diffPercent : ℚ)
  | below (diffPercent : ℚ)
deriving DecidableEq, Repr

/-- `diff = proj.eps - proj.analystEpsEstimate` in `ForwardAnalysisTable`. -/
def consensusDiff (eps analystEps : ℚ) : ℚ := eps - analystEps

/-- `diffPercent = (diff / Math.abs(proj.analystEpsEstimate)) * 100`. -/
def consensusDiffPercent (eps analystEps : ℚ) : ℚ :=
  consensusDiff eps analystEps / |analystEps| * 100

/-- The badge classification of `ForwardAnalysisTable` (lines 146-166):
aligned within 5 percent, otherwise above or below consensus on the
sign of the difference. -/
def classifyConsensus (eps analystEps : ℚ) : ConsensusBadge :=
  let diff := consensusDiff eps analystEps
  let diffPercent := consensusDiffPercent eps analystEps
  if |diffPercent| < 5 then ConsensusBadge.aligned
  else if 0 < diff then ConsensusBadge.above diffPercent
  else ConsensusBadge.below diffPercent

/-- The analyst annotation of one rendered row: present exactly when
the projection carries a consensus estimate. -/
def annotateProjection (p : FinancialProjection) : Option ConsensusBadge :=
  p.analystEpsEstimate.map (fun a => classifyConsensus p.eps a)

/-- The analyst-consensus row of `ForwardAnalysisTable`: each projection
is paired with its (purely derived) annotation. -/
def annotateProjections (l : List FinancialProjection) :
    List (FinancialProjection × Option ConsensusBadge) :=
  l.map (fun p => (p, annotateProjection p))

/-- The `ScenarioProjections` built by `ProjectionView` from a
`ProjectionResults`: the three per-scenario lists are mapped out of the
projected years only. -/
def scenarioProjectionsOfResults (r : ProjectionResults) : ScenarioProjections :=
  { bear := r.projections.map (fun p => p.bear)
    base := r.projections.map (fun p => p.base)
    bull := r.projections.map (fun p => p.bull)
    cagr := r.cagr }

/-- The baseline record displayed by `ProjectionSummary`:
`const baseline = projections.base[0]` (an empty list would throw on
the subsequent dereference, modelled by `none`). -/
def projectionSummaryBaseline (p : ScenarioProjections) : Option FinancialProjection :=
  p.base.head?

/-- TypeScript field types as declared in `src/shared/types/analysis.ts`,
deep-embedded so that declared nullability can be inspected. -/
inductive TsTy where
  | num
  | numOrNull
  | numOpt
  | str
  | strOpt
deriving DecidableEq, Repr

/-- Whether a declared TypeScript field type admits an explicit
null/undefined sentinel value. -/
def TsTy.admitsNullSentinel : TsTy → Bool
  | TsTy.numOrNull => true
  | TsTy.numOpt => true
  | TsTy.strOpt => true
  | _ => false

/-- The field declarations of `CagrMetrics` in
`src/shared/types/analysis.ts`: both fields are plain `number`. -/
def cagrMetricsFieldTypes : List (String × TsTy) :=
  [("revenue", TsTy.num), ("sharePrice", TsTy.num)]

/-- The field declarations of `FinancialProjection` in
`src/shared/types/analysis.ts` (the nullable and optional fields are
declared as such there). -/
def financialProjectionFieldTypes : List (String × TsTy) :=
  [("year", TsTy.num), ("revenue", TsTy.num), ("revenueGrowth", TsTy.num),
   ("netIncome", TsTy.num), ("netIncomeGrowth", TsTy.numOrNull),
   ("netIncomeMargins", TsTy.num), ("eps", TsTy.num),
   ("peLowEst", TsTy.num), ("peHighEst", TsTy.num),
   ("sharePriceLow", TsTy.num), ("sharePriceHigh", TsTy.num),
   ("valuationMethod", TsTy.str), ("psLowEst", TsTy.numOpt),
   ("psHighEst", TsTy.numOpt), ("analystEpsEstimate", TsTy.numOpt)]

/-- Running state of the scenario projector: the previous year's
revenue, net income, margin and share count. -/
structure ProjState where
  year : ℤ
  revenue : ℚ
  netIncome : ℚ
  netIncomeMargins : ℚ
  shares : ℚ
deriving DecidableEq, Repr

/-- Modelled from the spec: one year of the Rust Scenario Projector
(`ibkr_generate_projections`, absent from the source snapshot),
following section 4.2 of the specification.  Revenue compounds by the
constant growth rate, the margin drifts by the constant change, net
income is revenue times margin, shares compound by the shares growth,
EPS converts billions over millions, and the valuation method is chosen
from the sign of that year's EPS alone: P/E range `eps * peLow/peHigh`
when `eps > 0`, otherwise P/S range `perShareRevenue * psLow/psHigh`
with `perShareRevenue = revenue * 1e9 / (shares * 1e6)`. -/
def projectStep (revenueGrowth marginChange sharesGrowth peLow peHigh psLow psHigh : ℚ)
    (analystEps : List AnalystEstimate) (prev : ProjState) :
    ProjState × FinancialProjection :=
  let year := prev.year + 1
  let revenue := prev.revenue * (1 + revenueGrowth / 100)
  let netIncomeMargins := prev.netIncomeMargins + marginChange
  let netIncome := revenue * netIncomeMargins / 100
  let netIncomeGrowth :=
    if prev.netIncome = 0 then none
    else some ((netIncome - prev.netIncome) / prev.netIncome * 100)
  let shares := prev.shares * (1 + sharesGrowth / 100)
  let eps := netIncome * 1000000000 / (shares * 1000000)
  let analystEpsEstimate := (analystEps.find? (fun e => e.year = year)).map (fun e => e.estimate)
  let st : ProjState :=
    { year := year, revenue := revenue, netIncome := netIncome
      netIncomeMargins := netIncomeMargins, shares := shares }
  let p : FinancialProjection :=
    if 0 < eps then
      { year := year, revenue := revenue, revenueGrowth := revenueGrowth
        netIncome := netIncome, netIncomeGrowth := netIncomeGrowth
        netIncomeMargins := netIncomeMargins, eps := eps
        peLowEst := peLow, peHighEst := peHigh
        sharePriceLow := eps * peLow, sharePriceHigh := eps * peHigh
        valuationMethod := "P/E", psLowEst := none, psHighEst := none
        analystEpsEstimate := analystEpsEstimate }
    else
      let perShareRevenue := revenue * 1000000000 / (shares * 1000000)
      { year := year, revenue := revenue, revenueGrowth := revenueGrowth
        netIncome := netIncome, netIncomeGrowth := netIncomeGrowth
        netIncomeMargins := netIncomeMargins, eps := eps
        peLowEst := peLow, peHighEst := peHigh
        sharePriceLow := perShareRevenue * psLow
        sharePriceHigh := perShareRevenue * psHigh
        valuationMethod := "P/S", psLowEst := some psLow, psHighEst := some psHigh
        analystEpsEstimate := analystEpsEstimate }
  (st, p)

/-- Modelled from the spec: the year-by-year fold of the Scenario
Projector (section 4.2 and design note in section 9), keeping the
running state next to each produced projection. -/
def projectTrace (revenueGrowth marginChange sharesGrowth peLow peHigh psLow psHigh : ℚ)
    (analystEps : List AnalystEstimate) :
    ProjState → ℕ → List (ProjState × FinancialProjection)
  | _, 0 => []
  | prev, Nat.succ n =>
    let step := projectStep revenueGrowth marginChange sharesGrowth
      peLow peHigh psLow psHigh analystEps prev
    step :: projectTrace revenueGrowth marginChange sharesGrowth
      peLow peHigh psLow psHigh analystEps step.1 n

/-- Modelled from the spec: a full scenario projection, an ordered
sequence of exactly `years` entries starting from the baseline state
(the Rust `ibkr_generate_projections` engine is absent from the
source snapshot). -/
def projectScenario (revenueGrowth marginChange sharesGrowth peLow peHigh psLow psHigh : ℚ)
    (analystEps : List AnalystEstimate) (start : ProjState) (years : ℕ) :
    List FinancialProjection :=
  (projectTrace revenueGrowth marginChange sharesGrowth peLow peHigh psLow psHigh
    analystEps start years).map (fun x => x.2)

/-- Modelled from the spec: the projector starts from the baseline's
revenue, margin and net income and the current share count, at the
baseline year. -/
def initialState (baseline : FinancialProjection) (shares : ℚ) : ProjState :=
  { year := baseline.year, revenue := baseline.revenue
    netIncome := baseline.netIncome, netIncomeMargins := baseline.netIncomeMargins
    shares := shares }

/-- A concrete baseline projection used to instantiate the theorems. -/
def exBaseline : FinancialProjection :=
  { year := 2023, revenue := 100, revenueGrowth := 10, netIncome := 20
    netIncomeGrowth := none, netIncomeMargins := 20, eps := 2
    peLowEst := 50, peHighEst := 60, sharePriceLow := 100, sharePriceHigh := 120
    valuationMethod := "P/E", psLowEst := none, psHighEst := none
    analystEpsEstimate := none }

/-- A concrete projected base-scenario year, distinct from `exBaseline`. -/
def exProjBase : FinancialProjection :=
  { year := 2024, revenue := 135, revenueGrowth := 35, netIncome := 27675 / 1000
    netIncomeGrowth := some (154375 / 4000), netIncomeMargins := 205 / 10, eps := 27675 / 1000
    peLowEst := 50, peHighEst := 60, sharePriceLow := 1383750 / 1000, sharePriceHigh := 16605 / 10
    valuationMethod := "P/E", psLowEst := none, psHighEst := none
    analystEpsEstimate := some 25 }

/-- A concrete projected bear-scenario year. -/
def exProjBear : FinancialProjection :=
  { year := 2024, revenue := 120, revenueGrowth := 20, netIncome := 234 / 10
    netIncomeGrowth := some 17, netIncomeMargins := 195 / 10, eps := 234 / 10
    peLowEst := 50, peHighEst := 60, sharePriceLow := 1170, sharePriceHigh := 1404
    valuationMethod := "P/E", psLowEst := none, psHighEst := none
    analystEpsEstimate := none }

/-- A concrete projected bull-scenario year. -/
def exProjBull : FinancialProjection :=
  { year := 2024, revenue := 150, revenueGrowth := 50, netIncome := 315 / 10
    netIncomeGrowth := some (575 / 10), netIncomeMargins := 21, eps := 315 / 10
    peLowEst := 50, peHighEst := 60, sharePriceLow := 1575, sharePriceHigh := 1890
    valuationMethod := "P/E", psLowEst := none, psHighEst := none
    analystEpsEstimate := none }

/-- The single concrete projected year built from the scenario rows. -/
def exYearly : YearlyProjection :=
  { year := 2024, bear := exProjBear, base := exProjBase, bull := exProjBull }

/-- Concrete CAGR block for the sample results. -/
def exCagr : ScenarioCagr :=
  { bear := { revenue := 20, sharePrice := 15 }
    base := { revenue := 35, sharePrice := 25 }
    bull := { revenue := 50, sharePrice := 40 } }

/-- A concrete `ProjectionResults` with one projected year. -/
def exResults : ProjectionResults :=
  { baseline := exBaseline, projections := [exYearly], cagr := exCagr }

/-- A concrete `ProjectionResults` with no projected years. -/
def exResultsEmpty : ProjectionResults :=
  { baseline := exBaseline, projections := [], cagr := exCagr }

/-- Concrete current metrics for the sample fundamental data. -/
def exCurrentMetrics : CurrentMetrics :=
  { price := 50, peRatio := 25, sharesOutstanding := 1000
    name := some "Example Corp", exchange := some "NASDAQ"
    marketCap := some "50B", dividendYield := none }

/-- Concrete fundamental data with an ordinary historical series. -/
def exFundamentalData : FundamentalData :=
  { symbol := "EXMP"
    historical := [{ year := 2022, revenue := 80, netIncome := 15, eps := 3/2 },
                   { year := 2023, revenue := 100, netIncome := 20, eps := 2 }]
    analystEstimates := none
    currentMetrics := exCurrentMetrics }

/-- Concrete fundamental data whose first historical year has zero
revenue, so the second row's growth computation divides by zero. -/
def exFundamentalDataZeroRev : FundamentalData :=
  { symbol := "ZERO"
    historical := [{ year := 2020, revenue := 0, netIncome := 0, eps := 0 },
                   { year := 2021, revenue := 5, netIncome := 1, eps := 1 }]
    analystEstimates := none
    currentMetrics := exCurrentMetrics }

/-- The state produced by one projector step advances the year by one. -/
lemma projectStep_fst_year (g mc sg peL peH psL psH : ℚ) (ae : List AnalystEstimate)
    (prev : ProjState) :
    (projectStep g mc sg peL peH psL psH ae prev).1.year = prev.year + 1 := rfl

/-- The projection produced by one projector step carries the advanced year. -/
lemma projectStep_snd_year (g mc sg peL peH psL psH : ℚ) (ae : List AnalystEstimate)
    (prev : ProjState) :
    (projectStep g mc sg peL peH psL psH ae prev).2.year = prev.year + 1 := by
  unfold projectStep
  dsimp only
  split <;> rfl

/-- The trace has exactly as many entries as requested years. -/
lemma projectTrace_length (g mc sg peL peH psL psH : ℚ) (ae : List AnalystEstimate) :
    ∀ (n : ℕ) (s : ProjState),
      (projectTrace g mc sg peL peH psL psH ae s n).length = n := by
  intro n
  induction n with
  | zero => intro s; rfl
  | succ n ih =>
    intro s
    unfold projectTrace
    simp [ih]

/-- The years along the trace are the integers `s.year + 1, s.year + 2, …`. -/
lemma projectTrace_years (g mc sg peL peH psL psH : ℚ) (ae : List AnalystEstimate) :
    ∀ (n : ℕ) (s : ProjState),
      (projectTrace g mc sg peL peH psL psH ae s n).map (fun x => x.2.year)
        = (List.range n).map (fun i : ℕ => s.year + 1 + (i : ℤ)) := by
  intro n
  induction n with
  | zero => intro s; rfl
  | succ n ih =>
    intro s
    unfold projectTrace
    dsimp only
    rw [List.range_succ_eq_map]
    rw [List.map_cons, List.map_cons, List.map_map, ih]
    refine congrArg₂ _ ?_ ?_
    · rw [projectStep_snd_year]
      push_cast
      ring
    · apply List.map_congr_left
      intro i _
      simp only [Function.comp_apply]
      rw [projectStep_fst_year]
      push_cast
      ring

/-- One projector step chooses its valuation from the sign of the
year's EPS alone: P/E range when positive, P/S range otherwise. -/
lemma projectStep_valuation (g mc sg peL peH psL psH : ℚ) (ae : List AnalystEstimate)
    (prev : ProjState) :
    (0 < (projectStep g mc sg peL peH psL psH ae prev).2.eps →
      (projectStep g mc sg peL peH psL psH ae prev).2.sharePriceLow
        = (projectStep g mc sg peL peH psL psH ae prev).2.eps * peL ∧
      (projectStep g mc sg peL peH psL psH ae prev).2.sharePriceHigh
        = (projectStep g mc sg peL peH psL psH ae prev).2.eps * peH ∧
      (projectStep g mc sg peL peH psL psH ae prev).2.valuationMethod = "P/E") ∧
    ((projectStep g mc sg peL peH psL psH ae prev).2.eps ≤ 0 →
      (projectStep g mc sg peL peH psL psH ae prev).2.sharePriceLow
        = (projectStep g mc sg peL peH psL psH ae prev).2.revenue * 1000000000
            / ((projectStep g mc sg peL peH psL psH ae prev).1.shares * 1000000) * psL ∧
      (projectStep g mc sg peL peH psL psH ae prev).2.sharePriceHigh
        = (projectStep g mc sg peL peH psL psH ae prev).2.revenue * 1000000000
            / ((projectStep g mc sg peL peH psL psH ae prev).1.shares * 1000000) * psH ∧
      (projectStep g mc sg peL peH psL psH ae prev).2.valuationMethod = "P/S") := by
  unfold projectStep
  dsimp only
  split
  case isTrue h =>
    refine ⟨fun _ => ⟨rfl, rfl, rfl⟩, fun h2 => absurd h (not_lt.mpr h2)⟩
  case isFalse h =>
    refine ⟨fun h2 => absurd h2 h, fun _ => ⟨rfl, rfl, rfl⟩⟩

/-- C1: for every projected year of every scenario, the valuation
method is chosen from that year's EPS sign alone: a positive EPS gives
the P/E share-price range `eps * peLow .. eps * peHigh` with method
"P/E", and a non-positive EPS (zero included) gives the P/S range
`perShareRevenue * psLow .. perShareRevenue * psHigh` with
`perShareRevenue = revenue * 1e9 / (shares * 1e6)` and method "P/S";
the choice depends only on the year's own state, so it is re-evaluated
independently each year and may switch in either direction. -/
theorem c1_valuation_switch (g mc sg peL peH psL psH : ℚ) (ae : List AnalystEstimate)
    (s : ProjState) (n : ℕ) (x : ProjState × FinancialProjection)
    (hx : x ∈ projectTrace g mc sg peL peH psL psH ae s n) :
    (0 < x.2.eps →
      x.2.sharePriceLow = x.2.eps * peL ∧
      x.2.sharePriceHigh = x.2.eps * peH ∧
      x.2.valuationMethod = "P/E") ∧
    (x.2.eps ≤ 0 →
      x.2.sharePriceLow = x.2.revenue * 1000000000 / (x.1.shares * 1000000) * psL ∧
      x.2.sharePriceHigh = x.2.revenue * 1000000000 / (x.1.shares * 1000000) * psH ∧
      x.2.valuationMethod = "P/S") := by
  induction n generalizing s with
  | zero => simp [projectTrace] at hx
  | succ n ih =>
    rw [projectTrace] at hx
    rcases List.mem_cons.mp hx with h | h
    · subst h
      exact projectStep_valuation g mc sg peL peH psL psH ae s
    · exact ih _ h

/-- A concrete first projector step used to instantiate `c1_valuation_switch`. -/
def exStep : ProjState × FinancialProjection :=
  projectStep 50 1 0 50 60 3 8 [] (initialState exBaseline 1000)

/-- C1 witness: the theorem applied to the first projected year of a
concrete bull scenario. -/
theorem c1_valuation_switch_witness :
    (exStep ∈ projectTrace 50 1 0 50 60 3 8 [] (initialState exBaseline 1000) 1) ∧
    ((0 < exStep.2.eps →
      exStep.2.sharePriceLow = exStep.2.eps * 50 ∧
      exStep.2.sharePriceHigh = exStep.2.eps * 60 ∧
      exStep.2.valuationMethod = "P/E") ∧
    (exStep.2.eps ≤ 0 →
      exStep.2.sharePriceLow = exStep.2.revenue * 1000000000 / (exStep.1.shares * 1000000) * 3 ∧
      exStep.2.sharePriceHigh = exStep.2.revenue * 1000000000 / (exStep.1.shares * 1000000) * 8 ∧
      exStep.2.valuationMethod = "P/S")) :=
  ⟨by simp [projectTrace, exStep],
   c1_valuation_switch 50 1 0 50 60 3 8 [] (initialState exBaseline 1000) 1 exStep
     (by simp [projectTrace, exStep])⟩

/-- C4: a scenario projection has exactly `assumptions.years` entries,
and its years are strictly ascending starting at `baseline.year + 1`
(they form the arithmetic progression `baseline.year + 1 + i`). -/
theorem c4_projection_length_and_years (a : ProjectionAssumptions) (g mc : ℚ)
    (baseline : FinancialProjection) (shares : ℚ) (ae : List AnalystEstimate)
    (h : 0 ≤ a.years) :
    ((projectScenario g mc a.sharesGrowth a.peLow a.peHigh a.psLow a.psHigh ae
        (initialState baseline shares) a.years.toNat).length : ℤ) = a.years ∧
    (projectScenario g mc a.sharesGrowth a.peLow a.peHigh a.psLow a.psHigh ae
        (initialState baseline shares) a.years.toNat).map (fun p => p.year)
      = (List.range a.years.toNat).map (fun i : ℕ => baseline.year + 1 + (i : ℤ)) := by
  constructor
  · rw [projectScenario, List.length_map, projectTrace_length, Int.toNat_of_nonneg h]
  · rw [projectScenario, List.map_map]
    exact projectTrace_years g mc a.sharesGrowth a.peLow a.peHigh a.psLow a.psHigh ae
      a.years.toNat (initialState baseline shares)

/-- C4 witness: the theorem applied to the default assumptions and a
concrete baseline. -/
theorem c4_projection_length_and_years_witness :
    0 ≤ defaultProjectionAssumptions.years ∧
    (((projectScenario 35 (1/2) defaultProjectionAssumptions.sharesGrowth
        defaultProjectionAssumptions.peLow defaultProjectionAssumptions.peHigh
        defaultProjectionAssumptions.psLow defaultProjectionAssumptions.psHigh []
        (initialState exBaseline 1000) defaultProjectionAssumptions.years.toNat).length : ℤ)
      = defaultProjectionAssumptions.years ∧
    (projectScenario 35 (1/2) defaultProjectionAssumptions.sharesGrowth
        defaultProjectionAssumptions.peLow defaultProjectionAssumptions.peHigh
        defaultProjectionAssumptions.psLow defaultProjectionAssumptions.psHigh []
        (initialState exBaseline 1000) defaultProjectionAssumptions.years.toNat).map
          (fun p => p.year)
      = (List.range defaultProjectionAssumptions.years.toNat).map
          (fun i : ℕ => exBaseline.year + 1 + (i : ℤ))) :=
  ⟨by decide,
   c4_projection_length_and_years defaultProjectionAssumptions 35 (1/2) exBaseline 1000 []
     (by decide)⟩

/-- C2: with both a projected EPS and a (nonzero) analyst consensus
present, `diff = eps - analystEps` and
`diffPercent = diff / |analystEps| * 100`, and the badge is Aligned
exactly when `|diffPercent| < 5`, above consensus exactly when
`|diffPercent| >= 5` and `diff > 0`, and below consensus exactly when
`|diffPercent| >= 5` and `diff < 0`. -/
theorem c2_consensus_classification (eps analystEps : ℚ) (h : analystEps ≠ 0) :
    (classifyConsensus eps analystEps = ConsensusBadge.aligned ↔
      |consensusDiffPercent eps analystEps| < 5) ∧
    (classifyConsensus eps analystEps
        = ConsensusBadge.above (consensusDiffPercent eps analystEps) ↔
      5 ≤ |consensusDiffPercent eps analystEps| ∧ 0 < consensusDiff eps analystEps) ∧
    (classifyConsensus eps analystEps
        = ConsensusBadge.below (consensusDiffPercent eps analystEps) ↔
      5 ≤ |consensusDiffPercent eps analystEps| ∧ consensusDiff eps analystEps < 0) := by
  have hzero : consensusDiff eps analystEps = 0 → consensusDiffPercent eps analystEps = 0 := by
    intro h0
    simp [consensusDiffPercent, h0]
  unfold classifyConsensus
  dsimp only
  split_ifs with h1 h2
  · exact ⟨⟨fun _ => h1, fun _ => rfl⟩,
      ⟨fun he => he.elim, fun hc => absurd hc.1 (not_le.mpr h1)⟩,
      ⟨fun he => he.elim, fun hc => absurd hc.1 (not_le.mpr h1)⟩⟩
  · exact ⟨⟨fun he => he.elim, fun hc => absurd hc h1⟩,
      ⟨fun _ => ⟨le_of_not_lt h1, h2⟩, fun _ => rfl⟩,
      ⟨fun he => he.elim,
       fun hc => absurd h2 (not_lt.mpr (le_of_lt hc.2))⟩⟩
  · have hd : consensusDiff eps analystEps < 0 :=
      lt_of_le_of_ne (not_lt.mp h2) (fun h0 => h1 (by rw [hzero h0]; norm_num))
    exact ⟨⟨fun he => he.elim, fun hc => absurd hc h1⟩,
      ⟨fun he => he.elim, fun hc => absurd hc.2 h2⟩,
      ⟨fun _ => ⟨le_of_not_lt h1, hd⟩, fun _ => rfl⟩⟩

/-- C2 witness: the theorem applied to a projected EPS of 27.675
against a consensus of 25 (an above-consensus year). -/
theorem c2_consensus_classification_witness :
    ((25 : ℚ) ≠ 0) ∧
    ((classifyConsensus (27675/1000) 25 = ConsensusBadge.aligned ↔
      |consensusDiffPercent (27675/1000) 25| < 5) ∧
    (classifyConsensus (27675/1000) 25
        = ConsensusBadge.above (consensusDiffPercent (27675/1000) 25) ↔
      5 ≤ |consensusDiffPercent (27675/1000) 25| ∧ 0 < consensusDiff (27675/1000) 25) ∧
    (classifyConsensus (27675/1000) 25
        = ConsensusBadge.below (consensusDiffPercent (27675/1000) 25) ↔
      5 ≤ |consensusDiffPercent (27675/1000) 25| ∧ consensusDiff (27675/1000) 25 < 0)) :=
  ⟨by norm_num, c2_consensus_classification (27675/1000) 25 (by norm_num)⟩

/-- C7: the analyst reconciliation is purely additive — pairing every
projection row with its consensus annotation leaves the underlying
projections (every field of every row) unchanged. -/
theorem c7_annotation_additive (l : List FinancialProjection) :
    (annotateProjections l).map Prod.fst = l := by
  simp only [annotateProjections, List.map_map]
  exact List.map_id l

/-- C8: the default assumptions are years = 5, revenue growth 20/35/50,
margin change -0.5/0.5/1.0, peLow = 50, peHigh = 60, psLow = 3,
psHigh = 8, sharesGrowth = 0. -/
theorem c8_default_assumptions :
    defaultProjectionAssumptions.years = 5 ∧
    defaultProjectionAssumptions.bearRevenueGrowth = 20 ∧
    defaultProjectionAssumptions.baseRevenueGrowth = 35 ∧
    defaultProjectionAssumptions.bullRevenueGrowth = 50 ∧
    defaultProjectionAssumptions.bearMarginChange = -0.5 ∧
    defaultProjectionAssumptions.baseMarginChange = 0.5 ∧
    defaultProjectionAssumptions.bullMarginChange = 1.0 ∧
    defaultProjectionAssumptions.peLow = 50 ∧
    defaultProjectionAssumptions.peHigh = 60 ∧
    defaultProjectionAssumptions.psLow = 3 ∧
    defaultProjectionAssumptions.psHigh = 8 ∧
    defaultProjectionAssumptions.sharesGrowth = 0 := by
  norm_num [defaultProjectionAssumptions]

/-- C10: the export conversion totally computes a result exactly when
the projections sequence is non-empty; the empty sequence (legal for
the engine when years <= 0) falls outside its domain, because the
source dereferences `projections[projections.length - 1]` with no
emptiness check. -/
theorem c10_convert_domain (f : FundamentalData) (r : ProjectionResults) :
    (convertToTickerAnalysisData f r).isSome ↔ r.projections ≠ [] := by
  unfold convertToTickerAnalysisData
  cases h : r.projections.getLast? with
  | none =>
    have he : r.projections = [] := List.getLast?_eq_none_iff.mp h
    simp [he]
  | some yp =>
    have hne : r.projections ≠ [] := by
      intro he
      rw [he] at h
      simp at h
    simp [hne]

/-- C5: for a non-empty projections sequence, each exported scenario
target price is the midpoint of the final projected year's share-price
range, and the exported upside percent is
`(targetPrice - price) / price * 100` against the current price. -/
theorem c5_export_target_and_upside (f : FundamentalData) (r : ProjectionResults)
    (yp : YearlyProjection) (hlast : r.projections.getLast? = some yp)
    (hp : f.currentMetrics.price ≠ 0) :
    ∃ t, convertToTickerAnalysisData f r = some t ∧
      t.projections.base.target_price
        = (yp.base.sharePriceLow + yp.base.sharePriceHigh) / 2 ∧
      t.projections.base.upside_percent = JsVal.fin
        (((yp.base.sharePriceLow + yp.base.sharePriceHigh) / 2 - f.currentMetrics.price)
          / f.currentMetrics.price * 100) ∧
      t.projections.bear.target_price
        = (yp.bear.sharePriceLow + yp.bear.sharePriceHigh) / 2 ∧
      t.projections.bear.upside_percent = JsVal.fin
        (((yp.bear.sharePriceLow + yp.bear.sharePriceHigh) / 2 - f.currentMetrics.price)
          / f.currentMetrics.price * 100) ∧
      t.projections.bull.target_price
        = (yp.bull.sharePriceLow + yp.bull.sharePriceHigh) / 2 ∧
      t.projections.bull.upside_percent = JsVal.fin
        (((yp.bull.sharePriceLow + yp.bull.sharePriceHigh) / 2 - f.currentMetrics.price)
          / f.currentMetrics.price * 100) := by
  have hup : ∀ q : ℚ, calculateUpside f.currentMetrics.price q
      = JsVal.fin ((q - f.currentMetrics.price) / f.currentMetrics.price * 100) := by
    intro q
    unfold calculateUpside jsDivQ
    rw [if_neg hp]
    rfl
  unfold convertToTickerAnalysisData
  rw [hlast]
  exact ⟨_, rfl, rfl, hup _, rfl, hup _, rfl, hup _⟩

/-- C5 witness: the theorem applied to concrete fundamental data and a
one-year projection result. -/
theorem c5_export_target_and_upside_witness :
    (exResults.projections.getLast? = some exYearly ∧
      exFundamentalData.currentMetrics.price ≠ 0) ∧
    (∃ t, convertToTickerAnalysisData exFundamentalData exResults = some t ∧
      t.projections.base.target_price
        = (exYearly.base.sharePriceLow + exYearly.base.sharePriceHigh) / 2 ∧
      t.projections.base.upside_percent = JsVal.fin
        (((exYearly.base.sharePriceLow + exYearly.base.sharePriceHigh) / 2
            - exFundamentalData.currentMetrics.price)
          / exFundamentalData.currentMetrics.price * 100) ∧
      t.projections.bear.target_price
        = (exYearly.bear.sharePriceLow + exYearly.bear.sharePriceHigh) / 2 ∧
      t.projections.bear.upside_percent = JsVal.fin
        (((exYearly.bear.sharePriceLow + exYearly.bear.sharePriceHigh) / 2
            - exFundamentalData.currentMetrics.price)
          / exFundamentalData.currentMetrics.price * 100) ∧
      t.projections.bull.target_price
        = (exYearly.bull.sharePriceLow + exYearly.bull.sharePriceHigh) / 2 ∧
      t.projections.bull.upside_percent = JsVal.fin
        (((exYearly.bull.sharePriceLow + exYearly.bull.sharePriceHigh) / 2
            - exFundamentalData.currentMetrics.price)
          / exFundamentalData.currentMetrics.price * 100)) :=
  ⟨⟨rfl, by norm_num [exFundamentalData, exCurrentMetrics]⟩,
   c5_export_target_and_upside exFundamentalData exResults exYearly rfl
     (by norm_num [exFundamentalData, exCurrentMetrics])⟩

/-- The export conversion evaluated on a non-empty projections list, as
one record equation. -/
lemma convertToTickerAnalysisData_eq_some (f : FundamentalData) (r : ProjectionResults)
    (yp : YearlyProjection) (h : r.projections.getLast? = some yp) :
    convertToTickerAnalysisData f r = some
      { ticker := f.symbol
        company_name := jsStrOr f.currentMetrics.name f.symbol
        sector := none
        market_cap := jsStrOrNull f.currentMetrics.marketCap
        current_price := f.currentMetrics.price
        pe_ratio := f.currentMetrics.peRatio
        eps := jsNumOrNull (f.historical.getLast?.map (fun hh => hh.eps))
        historical_financials := historicalRowsFrom none f.historical
        projections :=
          { base := scenarioProjectionExport f.currentMetrics.price yp.base
            bear := scenarioProjectionExport f.currentMetrics.price yp.bear
            bull := scenarioProjectionExport f.currentMetrics.price yp.bull }
        yearly_projections := r.projections.map (fun yearProj =>
          { year := yearProj.year
            bear := yearlyScenarioExport yearProj.bear
            base := yearlyScenarioExport yearProj.base
            bull := yearlyScenarioExport yearProj.bull })
        baseline_year := r.baseline.year } := by
  unfold convertToTickerAnalysisData
  rw [h]

/-- C6: evaluating the export at a historical series whose first year
has zero revenue, the second row's `growth_rate` is positive infinity,
not a null sentinel — the division-by-zero case leaks `Infinity` into
the output contract. -/
theorem c6_growth_rate_infinity_leak :
    ∃ t, convertToTickerAnalysisData exFundamentalDataZeroRev exResults = some t ∧
      t.historical_financials.map (fun hrow => hrow.growth_rate)
        = [none, some JsVal.posInf] := by
  refine ⟨_, convertToTickerAnalysisData_eq_some _ _ exYearly rfl, ?_⟩
  show (historicalRowsFrom none exFundamentalDataZeroRev.historical).map
      (fun hrow => hrow.growth_rate) = [none, some JsVal.posInf]
  norm_num [historicalRowsFrom, historicalGrowthRate, jsDivQ, JsVal.mulConst,
    exFundamentalDataZeroRev]

/-- C3 counterexample: the `revenue` field of `CagrMetrics` is declared
a plain `number`, which admits no null/undefined sentinel, refuting the
claim that the CagrMetrics fields of the output contract admit one. -/
theorem c3_counterexample :
    (("revenue", TsTy.num) ∈ cagrMetricsFieldTypes) ∧
    TsTy.admitsNullSentinel TsTy.num = false := by
  decide

/-- C3 amended: every field of `CagrMetrics` is declared a plain
non-nullable `number`, so the produced output contract admits no
null/undefined sentinel for CAGR values (by contrast, the declared
`netIncomeGrowth : number | null` of `FinancialProjection` does admit
one, so the embedding genuinely distinguishes nullability). -/
theorem c3_cagr_fields_not_nullable :
    (cagrMetricsFieldTypes.all (fun p => !(TsTy.admitsNullSentinel p.2)) = true) ∧
    ((("netIncomeGrowth", TsTy.numOrNull) ∈ financialProjectionFieldTypes) ∧
      TsTy.admitsNullSentinel TsTy.numOrNull = true) := by
  decide

/-- C9 counterexample: at a concrete `ProjectionResults`, the baseline
record shown by `ProjectionSummary` (fed through `ProjectionView`) is
the first projected base-scenario year, carrying year
`baseline.year + 1`, and differs from the `ProjectionResults` baseline
record. -/
theorem c9_counterexample :
    projectionSummaryBaseline (scenarioProjectionsOfResults exResults)
        ≠ some exResults.baseline ∧
    projectionSummaryBaseline (scenarioProjectionsOfResults exResults) = some exProjBase ∧
    exProjBase.year = exResults.baseline.year + 1 := by
  refine ⟨?_, rfl, by decide⟩
  intro hsome
  have hbase : exProjBase = exResults.baseline := by
    have h1 : some exProjBase = some exResults.baseline := hsome
    injection h1
  exact absurd (congrArg FinancialProjection.year hbase) (by decide)

/-- C9 amended: the baseline metrics shown by `ProjectionSummary` come
from `projections.base[0]` — the first projected base-scenario year —
not from the `ProjectionResults` baseline record. -/
theorem c9_summary_shows_first_projected_year (r : ProjectionResults)
    (yp : YearlyProjection) (h : r.projections.head? = some yp) :
    projectionSummaryBaseline (scenarioProjectionsOfResults r) = some yp.base := by
  unfold projectionSummaryBaseline scenarioProjectionsOfResults
  dsimp only
  rw [List.head?_map, h]
  rfl

/-- C9 witness: the amended theorem applied to the concrete results. -/
theorem c9_summary_shows_first_projected_year_witness :
    (exResults.projections.head? = some exYearly) ∧
    projectionSummaryBaseline (scenarioProjectionsOfResults exResults)
      = some exYearly.base :=
  ⟨rfl, c9_summary_shows_first_projected_year exResults exYearly rfl⟩
